import Mathlib

/-!
Shallow embedding of the steward/cellar_rebalancer Poller orchestration and
decision engine, and of the prediction-window refresh (`TimeRange::poll`).

Sources embedded:
- `cellar_rebalancer/src/collector/poller.rs` — `Poller`, `from_tick_weight`,
  `decide_rebalance`, `update_poller`, `poll_time_range`, `poll_contract_state`,
  and the cycle body `poll`.
- `src/time_range.rs` — `TimeRange`, `TickWeight`, `MongoData`,
  `MongoTickWeights`, `TimeRange::poll`, `f64_unit_to_price`.
- `steward/src/error.rs` — `ErrorKind`.

Modelling conventions:
- Machine integers become `Nat`/`Int` (`u32`/`U256` as `Nat`, `i32` as `Int`);
  no arithmetic in the embedded code paths can overflow except the `as u32`
  float cast, which is modelled with its saturating-truncation semantics.
- Rust f64 values flowing out of the BSON record (`as_f64`) are modelled as
  exact rationals `ℚ`; every concrete input used in a theorem below is exactly
  representable in f64 and its arithmetic is exact in f64, so the rational
  model agrees with the compiled program on those inputs.
- Fallible BSON accessors (`as_f64`, `as_datetime`) are modelled as `Option`;
  a Rust `unwrap`/`expect` on a failed value is a process-terminating panic,
  modelled by `PanicOr.panic`.
- External collaborators are parameters: the mongo store response is a
  `StoreResponse` argument, `uniswap_v3_sdk::priceToTick` is a function
  argument `priceToTick : Price → Int`, the etherscan gas fetch is an
  `Except ErrorKind Nat` argument, the on-chain `rebalance` call is a function
  argument from the submitted instruction list to its result, and
  `std::env::var("CELLAR_DRY_RUN")` is an `Option String` argument.
- `chrono::DateTime` timestamps are modelled as `Int`, Ethereum addresses as
  `String` (the embedded code only ever calls `.to_string()` on them).
- The cellar_rebalancer crate's `TimeRange` adds `pair_database` and
  `tick_spacing` fields to the struct of `src/time_range.rs`; they are used
  only for logging and are not read by any embedded code path, so the struct
  here follows `src/time_range.rs`.
-/

namespace Steward

/-- Result of running a fragment of Rust code that may panic (process
termination via `unwrap`/`expect`); `ret` is normal return. -/
inductive PanicOr (α : Type) where
  | panic : String → PanicOr α
  | ret : α → PanicOr α
deriving DecidableEq, Repr

/-- `steward/src/error.rs` — `ErrorKind`. Note the enum has no store-access
and no malformed-data variant. -/
inductive ErrorKind where
  | Config
  | ContractError
  | Io
  | GasOracle
  | GrpcError
  | Http
  | KeysError
  | MiscError
  | ProviderError
deriving DecidableEq, Repr

/-- `config::TokenInfo` as used by `time_range.rs`: symbol, address, decimals. -/
structure TokenInfo where
  symbol : String
  address : String
  decimals : Nat
deriving DecidableEq, Repr

/-- `uniswap_v3_sdk::Token`. -/
structure Token where
  symbol : String
  address : String
deriving DecidableEq, Repr

/-- `uniswap_v3_sdk::Price`. -/
structure Price where
  token_0 : Token
  token_1 : Token
  amount_0 : Int
  amount_1 : Int
deriving DecidableEq, Repr

/-- `time_range.rs` — `TickWeight`: `upper_bound: i32`, `lower_bound: i32`,
`weight: u32`. -/
structure TickWeight where
  upper_bound : Int
  lower_bound : Int
  weight : Nat
deriving DecidableEq, Repr

/-- `time_range.rs` — `TimeRange` (the prediction window). `time` and
`previous_update` are `Option<DateTime>` timestamps, `pair_id` is `U256`,
`weight_factor` is `u32`. -/
structure TimeRange where
  time : Option Int
  previous_update : Option Int
  pair_id : Nat
  token_info : TokenInfo × TokenInfo
  weight_factor : Nat
  tick_weights : List TickWeight
  monogo_uri : String
deriving DecidableEq, Repr

/-- `time_range.rs` — `MongoTickWeights`: the three BSON numeric fields each
coerced with `as_f64()`, which yields `None` when the field is not numeric
(malformed). -/
structure MongoTickWeights where
  lower : Option ℚ
  upper : Option ℚ
  weight : Option ℚ
deriving DecidableEq, Repr

/-- `time_range.rs` — `MongoData`: one prediction record. `created_timestamp`
models the result of `.as_datetime()` (`None` = malformed). The unused `_id`
BSON field is omitted. -/
structure MongoData where
  created_timestamp : Option Int
  pair_id : Nat
  symbol : String
  tick_weights : List MongoTickWeights
deriving DecidableEq, Repr

/-- Response of the mongo prediction store inside one `TimeRange::poll` call:
`unreachable` covers a failed client connect / `find` / cursor `try_next`
(each hit by an `unwrap` in the source), `empty` a store with no record,
`record` the most recent record (sorted descending by `created_timestamp`,
first element). -/
inductive StoreResponse where
  | unreachable
  | empty
  | record : MongoData → StoreResponse
deriving DecidableEq, Repr

/-- `num_bigint` `f64::to_bigint` — truncation toward zero. -/
def to_bigint (q : ℚ) : Int :=
  if q < 0 then Int.ceil q else Int.floor q

/-- Rust `f64 as u32`: truncate toward zero, saturating at the `u32` range. -/
def f64_as_u32 (q : ℚ) : Nat :=
  min (Int.toNat (to_bigint q)) (2 ^ 32 - 1)

/-- `time_range.rs` — `f64_unit_to_price`: scale the fractional price unit by
the token decimals into a `Price` (numerator by `10^decimals_0`, denominator
by `10^decimals_1`). -/
def f64_unit_to_price (x : ℚ) (token_0 token_1 : TokenInfo) : Price :=
  { token_0 := { symbol := token_0.symbol, address := token_0.address }
    token_1 := { symbol := token_1.symbol, address := token_1.address }
    amount_0 := to_bigint x * (10 : Int) ^ token_0.decimals
    amount_1 := 1 * (10 : Int) ^ token_1.decimals }

/-- The per-record loop body of `TimeRange::poll`: for each raw mongo tick
weight, unwrap the three BSON numerics (`as_f64().unwrap()` — panic when
malformed), convert bounds to ticks through `f64_unit_to_price` and
`priceToTick`, and compute the integer weight as
`(weight_factor as f64 * weight) as u32`. -/
def normalizeTickWeights (priceToTick : Price → Int) (tr : TimeRange) :
    List MongoTickWeights → PanicOr (List TickWeight)
  | [] => PanicOr.ret []
  | mw :: rest =>
    match mw.upper with
    | none => PanicOr.panic "as_f64 unwrap"
    | some upper_float =>
      match mw.lower with
      | none => PanicOr.panic "as_f64 unwrap"
      | some lower_float =>
        match mw.weight with
        | none => PanicOr.panic "as_f64 unwrap"
        | some w =>
          match normalizeTickWeights priceToTick tr rest with
          | PanicOr.panic m => PanicOr.panic m
          | PanicOr.ret tws =>
            PanicOr.ret
              ({ upper_bound :=
                   priceToTick
                     (f64_unit_to_price upper_float tr.token_info.1 tr.token_info.2)
                 lower_bound :=
                   priceToTick
                     (f64_unit_to_price lower_float tr.token_info.1 tr.token_info.2)
                 weight := f64_as_u32 ((tr.weight_factor : ℚ) * w) } :: tws)

/-- `time_range.rs` — `TimeRange::poll`. An unreachable store panics (the
source `unwrap`s the client connect, the `find` and the cursor); an empty
store leaves the window unchanged; a record shifts `previous_update := time`,
sets `time` from the record timestamp (`as_datetime().unwrap()` — panic when
malformed), overwrites `pair_id` with the record's `pair_id`, and replaces
`tick_weights` wholesale with the normalized list. -/
def TimeRange.poll (tr : TimeRange) (priceToTick : Price → Int)
    (store : StoreResponse) : PanicOr TimeRange :=
  match store with
  | StoreResponse.unreachable => PanicOr.panic "mongodb unwrap"
  | StoreResponse.empty => PanicOr.ret tr
  | StoreResponse.record rec =>
    match rec.created_timestamp with
    | none => PanicOr.panic "as_datetime unwrap"
    | some ts =>
      match normalizeTickWeights priceToTick tr rec.tick_weights with
      | PanicOr.panic m => PanicOr.panic m
      | PanicOr.ret tws =>
        PanicOr.ret
          { tr with
            previous_update := tr.time
            time := some ts
            pair_id := rec.pair_id
            tick_weights := tws }

/-- `rebalancer_abi::cellar_uniswap::CellarTickInfo` (`token_id: U256`). -/
structure CellarTickInfo where
  token_id : Nat
  tick_upper : Int
  tick_lower : Int
  weight : Nat
deriving DecidableEq, Repr

/-- `poller.rs` — `from_tick_weight`: instruction with `token_id = 0`
(unminted placeholder). -/
def from_tick_weight (tick_weight : TickWeight) : CellarTickInfo :=
  { token_id := 0
    tick_upper := tick_weight.upper_bound
    tick_lower := tick_weight.lower_bound
    weight := tick_weight.weight }

/-- `gas.rs` — `CellarGas`: configured max price and last observed price. -/
structure CellarGas where
  max_gas_price : Nat
  current_gas : Option Nat
deriving DecidableEq, Repr

/-- `cellar_uniswap_wrapper::ContractStateUpdate` — empty marker struct. -/
structure ContractStateUpdate where
deriving DecidableEq, Repr

/-- `cellar_uniswap_wrapper::UniswapV3CellarState`, restricted to the field
the Poller reads/writes (`gas_price`); the contract handle itself is an
external collaborator. -/
structure UniswapV3CellarState where
  gas_price : Option Nat
deriving DecidableEq, Repr

/-- `cellar_rebalancer/src/collector/poller.rs` — `Poller` (the `pool`
contract handle is an external collaborator and carries no state read by the
embedded code; `poll_interval` is in seconds). -/
structure Poller where
  poll_interval : Nat
  time_range : TimeRange
  cellar_gas : CellarGas
  contract_state : UniswapV3CellarState
deriving DecidableEq, Repr

/-- Whether the cycle invoked the external `rebalance` call, and with which
instruction list. -/
inductive RebalanceCall where
  | notCalled
  | called : List CellarTickInfo → RebalanceCall
deriving DecidableEq, Repr

/-- Observable outcome of one `poll` cycle: a process-terminating panic, a
logged-and-skipped cycle (`error!("Error fetching data {}", e)`), or normal
completion. -/
inductive CycleOutcome where
  | panicked : String → CycleOutcome
  | skipped : ErrorKind → CycleOutcome
  | completed : CycleOutcome
deriving DecidableEq, Repr

/-- `poller.rs` — `poll_time_range`: clones `self.time_range`, polls the
clone, wraps it in `Ok`; `self` is not mutated. A panic inside
`TimeRange::poll` propagates. -/
def Poller.poll_time_range (p : Poller) (priceToTick : Price → Int)
    (store : StoreResponse) : PanicOr (Except ErrorKind TimeRange) :=
  match p.time_range.poll priceToTick store with
  | PanicOr.panic m => PanicOr.panic m
  | PanicOr.ret tr => PanicOr.ret (Except.ok tr)

/-- `poller.rs` — `poll_contract_state`: always `Ok(ContractStateUpdate {})`. -/
def Poller.poll_contract_state (_p : Poller) :
    Except ErrorKind ContractStateUpdate :=
  Except.ok {}

/-- `poller.rs` — `update_poller`: sets `cellar_gas.current_gas` and
`contract_state.gas_price` to the fetched gas price and replaces
`time_range` wholesale. -/
def Poller.update_poller (p : Poller) (time_range : TimeRange) (gas : Nat) :
    Poller :=
  { p with
    cellar_gas := { p.cellar_gas with current_gas := some gas }
    contract_state := { p.contract_state with gas_price := some gas }
    time_range := time_range }

/-- The filter/map loop of `decide_rebalance`: push `from_tick_weight` of
every tick weight with `weight > 0`, in input order. -/
def decideTickInfo : List TickWeight → List CellarTickInfo
  | [] => []
  | tick_weight :: rest =>
    if tick_weight.weight > 0 then
      from_tick_weight tick_weight :: decideTickInfo rest
    else
      decideTickInfo rest

/-- `poller.rs` — `decide_rebalance`. Builds the filtered instruction list,
then reads `CELLAR_DRY_RUN` (`expect` — panic when unset); when it equals
"TRUE" it returns `Ok` without calling `rebalance`, otherwise it reverses the
list and submits it to the external `rebalance` call, whose result is the
argument `rebalanceResult`. The returned `RebalanceCall` records whether and
with which list the external call was made. -/
def decide_rebalance (p : Poller) (dryRun : Option String)
    (rebalanceResult : List CellarTickInfo → Except ErrorKind Unit) :
    PanicOr (Except ErrorKind Unit × RebalanceCall) :=
  let tick_info := decideTickInfo p.time_range.tick_weights
  match dryRun with
  | none => PanicOr.panic "Expect CELLAR_DRY_RUN var"
  | some v =>
    if v = "TRUE" then
      PanicOr.ret (Except.ok (), RebalanceCall.notCalled)
    else
      let submitted := tick_info.reverse
      PanicOr.ret (rebalanceResult submitted, RebalanceCall.called submitted)

/-- `poller.rs` — the cycle body `poll`: `try_join!` of the three fetches; on
any fetch error the cycle is logged and skipped with no state change; on
success the results are merged with `update_poller` and `decide_rebalance` is
run with `.unwrap()` — a rebalance error becomes a panic. The contract-state
fetch cannot fail (`poll_contract_state` is `Ok` unconditionally). -/
def Poller.poll (p : Poller) (priceToTick : Price → Int)
    (store : StoreResponse) (gasResult : Except ErrorKind Nat)
    (dryRun : Option String)
    (rebalanceResult : List CellarTickInfo → Except ErrorKind Unit) :
    CycleOutcome × Poller × RebalanceCall :=
  match p.poll_time_range priceToTick store with
  | PanicOr.panic m => (CycleOutcome.panicked m, p, RebalanceCall.notCalled)
  | PanicOr.ret (Except.error e) =>
    (CycleOutcome.skipped e, p, RebalanceCall.notCalled)
  | PanicOr.ret (Except.ok time_range) =>
    match gasResult with
    | Except.error e => (CycleOutcome.skipped e, p, RebalanceCall.notCalled)
    | Except.ok gas =>
      match p.poll_contract_state with
      | Except.error e => (CycleOutcome.skipped e, p, RebalanceCall.notCalled)
      | Except.ok _ =>
        let p1 := p.update_poller time_range gas
        match decide_rebalance p1 dryRun rebalanceResult with
        | PanicOr.panic m => (CycleOutcome.panicked m, p1, RebalanceCall.notCalled)
        | PanicOr.ret (Except.ok _, call) => (CycleOutcome.completed, p1, call)
        | PanicOr.ret (Except.error _, call) =>
          (CycleOutcome.panicked "decide_rebalance unwrap", p1, call)

/-! ### Concrete sample values used by closed theorems and witnesses -/

/-- A concrete token metadata value (decimals 0 keeps price arithmetic exact). -/
def sampleToken0 : TokenInfo :=
  { symbol := "T0", address := "0xaaaa", decimals := 0 }

/-- A second concrete token metadata value. -/
def sampleToken1 : TokenInfo :=
  { symbol := "T1", address := "0xbbbb", decimals := 0 }

/-- A concrete prediction window as configured at `Poller::new`: the pair the
Poller is configured for is `pair_id = 1`, `weight_factor = 1`, and the window
holds one positive-weight range and one zero-weight range. -/
def sampleTR : TimeRange :=
  { time := none
    previous_update := none
    pair_id := 1
    token_info := (sampleToken0, sampleToken1)
    weight_factor := 1
    tick_weights :=
      [{ upper_bound := 10, lower_bound := -10, weight := 3 },
       { upper_bound := 5, lower_bound := -5, weight := 0 }]
    monogo_uri := "mongodb://localhost:27017" }

/-- A concrete Poller holding `sampleTR`. -/
def samplePoller : Poller :=
  { poll_interval := 60
    time_range := sampleTR
    cellar_gas := { max_gas_price := 1000000000, current_gas := none }
    contract_state := { gas_price := none } }

/-- A concrete price-to-tick mapping (the claims below do not depend on which
mapping the external uniswap sdk implements). -/
def tickZero : Price → Int := fun _ => 0

/-- A concrete external rebalance collaborator that always succeeds. -/
def rebalanceOk : List CellarTickInfo → Except ErrorKind Unit :=
  fun _ => Except.ok ()

/-- A concrete external rebalance collaborator that always fails with a
contract error. -/
def rebalanceErr : List CellarTickInfo → Except ErrorKind Unit :=
  fun _ => Except.error ErrorKind.ContractError

/-- A record whose `created_timestamp` is not a BSON datetime (malformed). -/
def malformedRec : MongoData :=
  { created_timestamp := none, pair_id := 1, symbol := "T0T1",
    tick_weights := [] }

/-- A record with a valid timestamp whose single tick weight has a
non-numeric `weight` field (malformed; `as_f64` yields `None`). -/
def malformedNumRec : MongoData :=
  { created_timestamp := some 100, pair_id := 1, symbol := "T0T1",
    tick_weights := [{ lower := some 1, upper := some 2, weight := none }] }

/-- A well-formed record carrying a raw fractional weight `3/4` (exactly
representable in f64, as is its product with `weight_factor = 1`). -/
def sampleRec : MongoData :=
  { created_timestamp := some 100, pair_id := 1, symbol := "T0T1",
    tick_weights := [{ lower := some 1, upper := some 2, weight := some (3 / 4) }] }

/-- A well-formed record for a different pair (`pair_id = 2`) than the one the
Poller is configured for (`pair_id = 1`). -/
def crossPairRec : MongoData :=
  { created_timestamp := some 100, pair_id := 2, symbol := "XXYY",
    tick_weights := [] }

/-! ### Helper lemmas -/

/-- The `decide_rebalance` loop is filter-then-map. -/
theorem decideTickInfo_filter_map (tws : List TickWeight) :
    decideTickInfo tws =
      (tws.filter fun tw => tw.weight > 0).map from_tick_weight := by
  induction tws with
  | nil => rfl
  | cons tw rest ih =>
    by_cases h : tw.weight > 0
    · simp [decideTickInfo, h, List.filter_cons, ih]
    · simp [decideTickInfo, h, List.filter_cons, ih]

/-- If any raw mongo tick weight in the list has a non-numeric `upper`,
`lower` or `weight` field, the normalization loop panics at the
corresponding `as_f64().unwrap()`. -/
theorem normalizeTickWeights_malformed (priceToTick : Price → Int)
    (tr : TimeRange) (mws : List MongoTickWeights) :
    (∃ mw ∈ mws, mw.upper = none ∨ mw.lower = none ∨ mw.weight = none) →
      normalizeTickWeights priceToTick tr mws =
        PanicOr.panic "as_f64 unwrap" := by
  induction mws with
  | nil => rintro ⟨mw, hmem, _⟩; cases hmem
  | cons mw rest ih =>
    rintro ⟨mw0, hmem, hf⟩
    simp only [normalizeTickWeights]
    cases hu : mw.upper with
    | none => rfl
    | some upper_float =>
      cases hl : mw.lower with
      | none => rfl
      | some lower_float =>
        cases hw : mw.weight with
        | none => rfl
        | some w =>
          have hrest : normalizeTickWeights priceToTick tr rest =
              PanicOr.panic "as_f64 unwrap" := by
            apply ih
            rcases List.mem_cons.mp hmem with heq | hmem2
            · exfalso
              subst heq
              rcases hf with hx | hx | hx
              · rw [hu] at hx; cases hx
              · rw [hl] at hx; cases hx
              · rw [hw] at hx; cases hx
            · exact ⟨mw0, hmem2, hf⟩
          rw [hrest]

/-! ### Claims -/

/-- Claim C2: for every list of weighted ranges held by the prediction window,
the decision algorithm's output instruction count equals the count of input
ranges with `weight > 0`, and no output instruction has `weight == 0`. -/
theorem claim_C2_zero_weight_filtering (tws : List TickWeight) :
    (decideTickInfo tws).length =
        (tws.filter fun tw => tw.weight > 0).length ∧
      (decideTickInfo tws).all (fun inst => inst.weight != 0) = true := by
  constructor
  · rw [decideTickInfo_filter_map, List.length_map]
  · rw [decideTickInfo_filter_map]
    simp only [List.all_eq_true, List.mem_map, List.mem_filter]
    rintro inst ⟨tw, ⟨_, hw⟩, rfl⟩
    simp only [from_tick_weight, bne_iff_ne, ne_eq]
    simp only [gt_iff_lt, decide_eq_true_eq] at hw
    omega

/-- Claim C3 (order inversion): whenever the dry-run variable is set to a
value other than "TRUE", `decide_rebalance` submits to the external rebalance
call exactly the reverse of the subsequence of input ranges with
`weight > 0`, taken in input order and mapped to instructions. -/
theorem claim_C3_order_inversion (v : String) (hv : v ≠ "TRUE")
    (rebalanceResult : List CellarTickInfo → Except ErrorKind Unit)
    (p : Poller) :
    decide_rebalance p (some v) rebalanceResult =
      PanicOr.ret
        (rebalanceResult
           (((p.time_range.tick_weights.filter fun tw => tw.weight > 0).map
               from_tick_weight).reverse),
         RebalanceCall.called
           (((p.time_range.tick_weights.filter fun tw => tw.weight > 0).map
               from_tick_weight).reverse)) := by
  simp [decide_rebalance, hv, decideTickInfo_filter_map]

/-- Witness for C3 at a concrete input: `v = "FALSE"`, the sample Poller whose
window holds ranges `[A(w=3), B(w=0)]`; the submitted list is `[A]` reversed
from the filtered `[A]`. -/
theorem claim_C3_order_inversion_witness :
    decide_rebalance samplePoller (some "FALSE") rebalanceOk =
      PanicOr.ret
        (rebalanceOk
           (((samplePoller.time_range.tick_weights.filter
                fun tw => tw.weight > 0).map from_tick_weight).reverse),
         RebalanceCall.called
           (((samplePoller.time_range.tick_weights.filter
                fun tw => tw.weight > 0).map from_tick_weight).reverse)) :=
  claim_C3_order_inversion "FALSE" (by decide) rebalanceOk samplePoller

/-- Claim C5: when the prediction store contains zero records, the
prediction-window refresh leaves the ranges and the current timestamp (and
everything else) unchanged and returns normally (success, not an error: the
refresh has no error channel at all and does not panic here). -/
theorem claim_C5_empty_store_noop (priceToTick : Price → Int)
    (tr : TimeRange) :
    tr.poll priceToTick StoreResponse.empty = PanicOr.ret tr := rfl

/-- Claim C4 (partial-failure atomicity): in a cycle where a fetch returns an
error — the gas fetch is the only one of the three that can return an error
rather than succeed or panic — the Poller's state (`time_range`,
`cellar_gas`, `contract_state`) is returned unmutated, the cycle outcome is
the logged skip carrying that error, and the rebalance call is not invoked;
the hypothesis says the time-range fetch completed (did not panic). -/
theorem claim_C4_partial_failure_atomicity (priceToTick : Price → Int)
    (store : StoreResponse) (e : ErrorKind) (dryRun : Option String)
    (rebalanceResult : List CellarTickInfo → Except ErrorKind Unit)
    (p : Poller) (tr : TimeRange)
    (hstore : p.poll_time_range priceToTick store = PanicOr.ret (Except.ok tr)) :
    p.poll priceToTick store (Except.error e) dryRun rebalanceResult =
      (CycleOutcome.skipped e, p, RebalanceCall.notCalled) := by
  unfold Poller.poll
  rw [hstore]

/-- Witness for C4 at a concrete input: the sample Poller, an empty store
(time-range fetch completes), and a gas-oracle error; the cycle is skipped
with the Poller unchanged and no rebalance call. -/
theorem claim_C4_partial_failure_atomicity_witness :
    samplePoller.poll tickZero StoreResponse.empty
        (Except.error ErrorKind.GasOracle) (some "TRUE") rebalanceOk =
      (CycleOutcome.skipped ErrorKind.GasOracle, samplePoller,
       RebalanceCall.notCalled) :=
  claim_C4_partial_failure_atomicity tickZero StoreResponse.empty
    ErrorKind.GasOracle (some "TRUE") rebalanceOk samplePoller sampleTR rfl

/-- Claim C9 (dry-run): in a cycle whose fetches all succeed and whose
dry-run variable is the exact truthy string "TRUE", the external rebalance
call is never invoked, the cycle completes successfully, and the merged state
still updates normally (`update_poller` installs the fetched prediction
window and sets the current gas price). -/
theorem claim_C9_dry_run (priceToTick : Price → Int) (store : StoreResponse)
    (gas : Nat) (rebalanceResult : List CellarTickInfo → Except ErrorKind Unit)
    (p : Poller) (tr : TimeRange)
    (hstore : p.poll_time_range priceToTick store = PanicOr.ret (Except.ok tr)) :
    p.poll priceToTick store (Except.ok gas) (some "TRUE") rebalanceResult =
      (CycleOutcome.completed, p.update_poller tr gas,
       RebalanceCall.notCalled) := by
  unfold Poller.poll
  rw [hstore]
  simp [Poller.poll_contract_state, decide_rebalance]

/-- Witness for C9 at a concrete input: sample Poller, empty store, gas 7;
the cycle completes, the state is the merged update, no rebalance call. -/
theorem claim_C9_dry_run_witness :
    samplePoller.poll tickZero StoreResponse.empty (Except.ok 7)
        (some "TRUE") rebalanceErr =
      (CycleOutcome.completed, samplePoller.update_poller sampleTR 7,
       RebalanceCall.notCalled) :=
  claim_C9_dry_run tickZero StoreResponse.empty 7 rebalanceErr samplePoller
    sampleTR rfl

/-- Claim C10: in a cycle whose fetches all succeed, the decision step panics
(process termination via `expect("Expect CELLAR_DRY_RUN var")`) whenever the
CELLAR_DRY_RUN environment variable is unset — the variable must be present,
not merely false, on every deciding cycle. -/
theorem claim_C10_missing_env_panics (priceToTick : Price → Int)
    (store : StoreResponse) (gas : Nat)
    (rebalanceResult : List CellarTickInfo → Except ErrorKind Unit)
    (p : Poller) (tr : TimeRange)
    (hstore : p.poll_time_range priceToTick store = PanicOr.ret (Except.ok tr)) :
    p.poll priceToTick store (Except.ok gas) none rebalanceResult =
      (CycleOutcome.panicked "Expect CELLAR_DRY_RUN var",
       p.update_poller tr gas, RebalanceCall.notCalled) := by
  unfold Poller.poll
  rw [hstore]
  simp [Poller.poll_contract_state, decide_rebalance]

/-- Witness for C10 at a concrete input: sample Poller, empty store, gas 7,
environment variable unset; the decision step panics. -/
theorem claim_C10_missing_env_panics_witness :
    samplePoller.poll tickZero StoreResponse.empty (Except.ok 7) none
        rebalanceOk =
      (CycleOutcome.panicked "Expect CELLAR_DRY_RUN var",
       samplePoller.update_poller sampleTR 7, RebalanceCall.notCalled) :=
  claim_C10_missing_env_panics tickZero StoreResponse.empty 7 rebalanceOk
    samplePoller sampleTR rfl

/-- Claim C1 (code bug, evaluated at the failing input): in a cycle where all
three fetches succeed (empty store, gas 7), dry-run is "FALSE", and the
external rebalance call returns a contract error, the cycle body panics via
`self.decide_rebalance().await.unwrap()` — the process terminates instead of
catching and logging the error as the spec requires. -/
theorem claim_C1_rebalance_error_unwrap_panics :
    samplePoller.poll tickZero StoreResponse.empty (Except.ok 7)
        (some "FALSE") rebalanceErr =
      (CycleOutcome.panicked "decide_rebalance unwrap",
       samplePoller.update_poller sampleTR 7,
       RebalanceCall.called
         [from_tick_weight
            { upper_bound := 10, lower_bound := -10, weight := 3 }]) := by
  decide

/-- Counterexample for C6: the claim says an unreachable store yields a
recoverable `FetchError::Store` and a malformed timestamp a recoverable
`FetchError::Malformed`. On the code, both are process-terminating panics
(`unwrap` on the client connect / cursor, `unwrap` on `as_datetime`), not
returned errors — and `ErrorKind` has no store-access or malformed-data
variant at all. -/
theorem claim_C6_counterexample :
    sampleTR.poll tickZero StoreResponse.unreachable =
        PanicOr.panic "mongodb unwrap" ∧
      sampleTR.poll tickZero (StoreResponse.record malformedRec) =
        PanicOr.panic "as_datetime unwrap" := by
  exact ⟨rfl, rfl⟩

/-- Claim C6 as amended: when the prediction store is unreachable, or the
record's timestamp is malformed, or a numeric tick-weight field in the record
is malformed, the prediction-window refresh panics — terminating the
process — instead of returning a recoverable error; no store-access or
malformed-data error value is ever produced (the refresh has no error
channel). `rec` is a record with a malformed timestamp; `recN` is a record
with a valid timestamp one of whose tick weights has a non-numeric field. -/
theorem claim_C6_refresh_panics (priceToTick : Price → Int) (tr : TimeRange)
    (rec recN : MongoData) (ts : Int) (mw : MongoTickWeights)
    (hmal : rec.created_timestamp = none)
    (hts : recN.created_timestamp = some ts)
    (hmem : mw ∈ recN.tick_weights)
    (hfield : mw.upper = none ∨ mw.lower = none ∨ mw.weight = none) :
    tr.poll priceToTick StoreResponse.unreachable =
        PanicOr.panic "mongodb unwrap" ∧
      tr.poll priceToTick (StoreResponse.record rec) =
        PanicOr.panic "as_datetime unwrap" ∧
      tr.poll priceToTick (StoreResponse.record recN) =
        PanicOr.panic "as_f64 unwrap" := by
  refine ⟨rfl, ?_, ?_⟩
  · simp only [TimeRange.poll, hmal]
  · simp only [TimeRange.poll, hts]
    rw [normalizeTickWeights_malformed priceToTick tr recN.tick_weights
      ⟨mw, hmem, hfield⟩]

/-- Witness for the amended C6 at concrete inputs: the unreachable store, the
malformed-timestamp record, and the record whose tick weight has a
non-numeric `weight` field all panic. -/
theorem claim_C6_refresh_panics_witness :
    sampleTR.poll tickZero StoreResponse.unreachable =
        PanicOr.panic "mongodb unwrap" ∧
      sampleTR.poll tickZero (StoreResponse.record malformedRec) =
        PanicOr.panic "as_datetime unwrap" ∧
      sampleTR.poll tickZero (StoreResponse.record malformedNumRec) =
        PanicOr.panic "as_f64 unwrap" :=
  claim_C6_refresh_panics tickZero sampleTR malformedRec malformedNumRec 100
    { lower := some 1, upper := some 2, weight := none } rfl rfl
    (by simp [malformedNumRec]) (Or.inr (Or.inr rfl))

/-- Counterexample for C7: the claim says the stored integer weight is
`round(weight_scale * raw_weight)`. With `weight_factor = 1` and raw weight
`3/4` (both exactly representable in f64, product exact), the code stores
`(1.0 * 0.75) as u32 = 0`, while `round(1 * 3/4) = 1`: the cast truncates,
it does not round. -/
theorem claim_C7_counterexample :
    sampleTR.poll tickZero (StoreResponse.record sampleRec) =
        PanicOr.ret
          { sampleTR with
            previous_update := none
            time := some 100
            pair_id := 1
            tick_weights :=
              [{ upper_bound := 0, lower_bound := 0, weight := 0 }] } ∧
      round ((sampleTR.weight_factor : ℚ) * (3 / 4)) = 1 := by
  constructor
  · simp only [TimeRange.poll, sampleRec, sampleTR, normalizeTickWeights,
      f64_as_u32, to_bigint, f64_unit_to_price, tickZero, sampleToken0,
      sampleToken1]
    norm_num
  · norm_num [sampleTR, round_eq]

/-- Claim C7 as amended: the integer weight stored for each raw fractional
weight is the `u32` saturating truncation toward zero of
`weight_scale * raw_weight` (`f64_as_u32`), not the rounded product. -/
theorem claim_C7_weight_truncation (priceToTick : Price → Int)
    (tr : TimeRange) (mws : List MongoTickWeights) (tws : List TickWeight)
    (hr : normalizeTickWeights priceToTick tr mws = PanicOr.ret tws) :
    tws.map TickWeight.weight =
      mws.map (fun mw =>
        f64_as_u32 ((tr.weight_factor : ℚ) * mw.weight.getD 0)) := by
  induction mws generalizing tws with
  | nil =>
    simp only [normalizeTickWeights, PanicOr.ret.injEq] at hr
    subst hr
    rfl
  | cons mw rest ih =>
    unfold normalizeTickWeights at hr
    cases hu : mw.upper with
    | none => rw [hu] at hr; cases hr
    | some upper_float =>
      rw [hu] at hr
      cases hl : mw.lower with
      | none => rw [hl] at hr; cases hr
      | some lower_float =>
        rw [hl] at hr
        cases hw : mw.weight with
        | none => rw [hw] at hr; cases hr
        | some w =>
          rw [hw] at hr
          cases hrec : normalizeTickWeights priceToTick tr rest with
          | panic m => rw [hrec] at hr; cases hr
          | ret tws0 =>
            rw [hrec] at hr
            cases hr
            simp [ih tws0 hrec, hw]

/-- Witness for the amended C7 at a concrete input: the sample record's
single weight `3/4` is stored as `f64_as_u32 (1 * (3/4)) = 0`. -/
theorem claim_C7_weight_truncation_witness :
    ([({ upper_bound := 0, lower_bound := 0, weight := 0 } : TickWeight)]).map
        TickWeight.weight =
      sampleRec.tick_weights.map (fun mw =>
        f64_as_u32 ((sampleTR.weight_factor : ℚ) * mw.weight.getD 0)) :=
  claim_C7_weight_truncation tickZero sampleTR sampleRec.tick_weights
    [({ upper_bound := 0, lower_bound := 0, weight := 0 } : TickWeight)]
    (by
      simp only [sampleRec, sampleTR, normalizeTickWeights, f64_as_u32,
        to_bigint, f64_unit_to_price, tickZero, sampleToken0, sampleToken1]
      norm_num)

/-- Counterexample for C8: the claim says no operation ever changes the
window's `pair_id` away from the configured pair. The sample Poller is
configured for pair 1, yet a successful refresh that finds a record for
pair 2 overwrites `pair_id` to 2 (the code performs no cross-pair check —
the store query does not even filter by pair). -/
theorem claim_C8_counterexample :
    sampleTR.pair_id = 1 ∧
      sampleTR.poll tickZero (StoreResponse.record crossPairRec) =
        PanicOr.ret
          { sampleTR with
            previous_update := none
            time := some 100
            pair_id := 2
            tick_weights := [] } := by
  exact ⟨rfl, rfl⟩

/-- Claim C8 as amended: `pair_id` equals the configured pair at construction,
but every successful refresh that finds a record overwrites `pair_id` with
the record's `pair_id`, which may belong to a different pair; no cross-pair
check is performed. -/
theorem claim_C8_pair_id_overwritten (priceToTick : Price → Int)
    (tr : TimeRange) (rec : MongoData) (tr2 : TimeRange)
    (h : tr.poll priceToTick (StoreResponse.record rec) = PanicOr.ret tr2) :
    tr2.pair_id = rec.pair_id := by
  simp only [TimeRange.poll] at h
  cases hts : rec.created_timestamp with
  | none => rw [hts] at h; cases h
  | some ts =>
    rw [hts] at h
    cases hn : normalizeTickWeights priceToTick tr rec.tick_weights with
    | panic m => rw [hn] at h; cases h
    | ret tws =>
      rw [hn] at h
      cases h
      rfl

/-- Witness for the amended C8 at a concrete input: refreshing the pair-1
window from the pair-2 record leaves `pair_id = crossPairRec.pair_id`. -/
theorem claim_C8_pair_id_overwritten_witness :
    TimeRange.pair_id
        { sampleTR with
          previous_update := none
          time := some 100
          pair_id := 2
          tick_weights := [] } = crossPairRec.pair_id :=
  claim_C8_pair_id_overwritten tickZero sampleTR crossPairRec
    { sampleTR with
      previous_update := none
      time := some 100
      pair_id := 2
      tick_weights := [] } rfl

end Steward
